import Mathlib

/-!
Shallow embedding of `src/lib/api/apiUtils/object/versioning.js`: the
versioning-state decision engine of an S3-compatible object storage server.

JavaScript objects with optional fields are modelled as Lean structures whose
fields are `Option`-typed (a `none` field corresponds to an absent/`undefined`
property).  JavaScript truthiness checks on strings and booleans are modelled
by `strTruthy` and `boolTruthy`.  The asynchronous orchestration of
`versioningPreprocessing` is modelled by passing the outcomes of the three
metadata-store calls (put, get, delete) as explicit parameters: each outcome is
consulted exactly when the corresponding call would be issued.
-/

namespace CloudServer

/-- A physical data location reference.  In the source these are data-location
descriptor objects (always truthy in JavaScript), identified here by a key. -/
structure LocRef where
  key : String
deriving DecidableEq, Repr

/-- The raw `location` field of an object-metadata record: either a single
location reference or an array of them. -/
inductive RawLocation where
  | single (l : LocRef)
  | multiple (ls : List LocRef)
deriving DecidableEq, Repr

/-- `Array.isArray(location) ? location : [location]` -/
def normalizeLocation : RawLocation → List LocRef
  | RawLocation.single l => [l]
  | RawLocation.multiple ls => ls

/-- JavaScript truthiness of an optional string property: `undefined` and the
empty string are falsy. -/
def strTruthy : Option String → Bool
  | none => false
  | some s => s ≠ ""

/-- JavaScript truthiness of an optional boolean property. -/
def boolTruthy : Option Bool → Bool
  | none => false
  | some b => b

/-- Raw object metadata record (`objMD`), with the properties read by this
module.  An absent property is `none`. -/
structure ObjMD where
  versionId : Option String := none
  uploadId : Option String := none
  isNull : Option Bool := none
  isNullKey : Option Bool := none
  nullVersionId : Option String := none
  nullUploadId : Option String := none
  location : Option RawLocation := none
deriving DecidableEq, Repr

/-- State of the master version, as returned by `getMasterState()`. -/
structure MasterState where
  recordExists : Bool := false
  versionId : Option String := none
  uploadId : Option String := none
  isNull : Option Bool := none
  isNullKey : Option Bool := none
  nullVersionId : Option String := none
  nullUploadId : Option String := none
  objLocation : Option (List LocRef) := none
deriving DecidableEq, Repr

/-- `getMasterState(objMD)`: build the state of the master version from its
object metadata (`{}` when there is no record). -/
def getMasterState : Option ObjMD → MasterState
  | none => {}
  | some objMD =>
    { recordExists := true
      versionId := objMD.versionId
      uploadId := objMD.uploadId
      isNull := objMD.isNull
      isNullKey := objMD.isNullKey
      nullVersionId := objMD.nullVersionId
      nullUploadId := objMD.nullUploadId
      objLocation := objMD.location.map normalizeLocation }

/-- The `options` object passed to the metadata-store call for the actual
write (the spec's `putOptions`). -/
structure PutOptions where
  versionId : Option String := none
  versioning : Option Bool := none
  isNull : Option Bool := none
  dataToDelete : Option (List LocRef) := none
deriving DecidableEq, Repr

/-- Options for metadata to create a new null version key (the spec's
`storeOptions`). -/
structure StoreOptions where
  versionId : Option String := none
  isNullKey : Option Bool := none
deriving DecidableEq, Repr

/-- Options for metadata to delete the null version key (the spec's
`deleteOptions`; named `delOptions` in the source). -/
structure DelOptions where
  versionId : Option String := none
  deleteData : Option Bool := none
  replayId : Option String := none
deriving DecidableEq, Repr

/-- Result of `processVersioningState`: `{ options, storeOptions?, delOptions? }`. -/
structure VersioningDecision where
  options : PutOptions := {}
  storeOptions : Option StoreOptions := none
  delOptions : Option DelOptions := none
deriving DecidableEq, Repr

/-- Stand-in for `versionIdUtils.getInfVid(config.replicationGroupId)`: the
reserved "infinite" version identifier produced by the external codec library
for null versions created before bucket versioning is configured.  Its exact
string value is opaque to this module; only its identity matters here. -/
def nonVersionedObjId : String := "99999999999999999999.RG000"

/-- `processVersioningState(mst, vstat)`: pure decision function mapping the
master-version state and the bucket versioning status to a set of options
objects. -/
def processVersioningState (mst : MasterState) (vstat : String) : VersioningDecision :=
  if boolTruthy mst.isNullKey || boolTruthy mst.isNull || !strTruthy mst.versionId then
    -- object does not exist, or is not versioned, or is a current null version
    if vstat = "Suspended" then
      -- versioning is suspended, overwrite existing master version
      let options : PutOptions :=
        { versionId := some "", isNull := some true, dataToDelete := mst.objLocation }
      if boolTruthy mst.isNull then
        -- a null versioned key exists, clean it up prior to put
        { options := options, delOptions := some { versionId := mst.versionId } }
      else if boolTruthy mst.isNullKey then
        -- clean up the null key prior to put
        { options := options, delOptions := some { versionId := some "null" } }
      else
        { options := options }
    else
      -- versioning is enabled, create a new version
      let options : PutOptions := { versioning := some true }
      if mst.recordExists then
        -- store master version in the null key
        { options := options
          storeOptions := some
            { versionId :=
                if boolTruthy mst.isNull || boolTruthy mst.isNullKey then mst.versionId
                else some nonVersionedObjId
              isNullKey := some true } }
      else
        { options := options }
  else
    -- master is versioned and is not a null version
    let options : PutOptions :=
      if vstat = "Suspended" then { versionId := some "", isNull := some true }
      else { versioning := some true }
    if strTruthy mst.nullVersionId then
      -- deal with legacy nullVersionId
      if vstat = "Suspended" then
        -- delete the null versioned object
        { options := options
          delOptions := some
            { versionId := mst.nullVersionId
              deleteData := some true
              replayId := if strTruthy mst.nullUploadId then mst.nullUploadId else none } }
      else
        -- transform the null versioned key into a null key
        { options := options
          storeOptions := some { versionId := mst.nullVersionId, isNullKey := some true }
          delOptions := some { versionId := mst.nullVersionId } }
    else if vstat = "Suspended" then
      -- need to get the null key to delete it, it may or not exist
      { options := options
        delOptions := some { versionId := some "null", deleteData := some true } }
    else
      { options := options }

/-- Errors returned by the external metadata store (discriminated in the
source by `err.is.NoSuchKey`), plus the `errors.InternalError` value the
orchestrator itself produces. -/
inductive MDError where
  | noSuchKey
  | internalError
  | otherError
deriving DecidableEq, Repr

/-- `_getNullVersionLocationsToDelete(bucketName, objKey, options, mst, log, cb)`:
get the locations of null version data for deletion.  `optionsVersionId` is
`options.versionId`; `getMDResult` is the outcome of the
`metadata.getObjectMD` call (the error, or the fetched record's `location`
field), consulted only when the call would be issued. -/
def getNullVersionLocationsToDelete (optionsVersionId : Option String) (mst : MasterState)
    (getMDResult : Except MDError (Option RawLocation)) :
    Except MDError (Option (List LocRef)) :=
  if optionsVersionId = mst.versionId then
    -- no need to get location, we already have the master's metadata
    Except.ok mst.objLocation
  else
    match getMDResult with
    | Except.error e =>
      if e = MDError.noSuchKey then Except.ok none else Except.error e
    | Except.ok none => Except.ok none
    | Except.ok (some loc) => Except.ok (some (normalizeLocation loc))

/-- The `storeVersion` step of the `async.series` call: skipped when there is
no `storeOptions`, otherwise it issues `metadata.putObjectMD` (through
`_storeNullVersionMD`) and propagates its error verbatim.  Returns the error
aborting the series, if any. -/
def storeVersionStep (d : VersioningDecision) (storeResult : Option MDError) :
    Option MDError :=
  if d.storeOptions.isSome then storeResult else none

/-- The `getNullVersionLocationsToDelete` step of the `async.series` call:
skipped unless `delOptions.deleteData` is truthy, otherwise it resolves the
null version's data locations and, when some were resolved, attaches them to
`options.dataToDelete`.  Returns the put options after this step, or the
error aborting the series. -/
def getNullVersionLocationsStep (d : VersioningDecision) (mst : MasterState)
    (getMDResult : Except MDError (Option RawLocation)) :
    Except MDError PutOptions :=
  match d.delOptions with
  | some dOpts =>
    if boolTruthy dOpts.deleteData then
      match getNullVersionLocationsToDelete dOpts.versionId mst getMDResult with
      | Except.error e => Except.error e
      | Except.ok none => Except.ok d.options
      | Except.ok (some nullDataToDelete) =>
        Except.ok { d.options with dataToDelete := some nullDataToDelete }
    else Except.ok d.options
  | none => Except.ok d.options

/-- The `deleteNullVersion` step of the `async.series` call: skipped when
there is no `delOptions`, otherwise it issues `metadata.deleteObjectMD`
(through `_deleteNullVersionMD`); a NoSuchKey result is absorbed (a
concurrent request may have deleted the null version already) and any other
failure becomes `errors.InternalError`. -/
def deleteNullVersionStep (d : VersioningDecision) (deleteResult : Option MDError)
    (opts : PutOptions) : Except MDError PutOptions :=
  match d.delOptions with
  | none => Except.ok opts
  | some _ =>
    match deleteResult with
    | none => Except.ok opts
    | some e =>
      if e = MDError.noSuchKey then Except.ok opts
      else Except.error MDError.internalError

/-- `versioningPreprocessing(bucketName, bucketMD, objectKey, objMD, log, callback)`.
`vCfg` is the bucket's versioning configuration `Status` (or `none` when the
bucket is not versioning configured).  The three store-call outcomes are
passed explicitly: `storeResult` for `metadata.putObjectMD` in the
`storeVersion` step (`none` = success), `getMDResult` for
`metadata.getObjectMD` in the `getNullVersionLocationsToDelete` step, and
`deleteResult` for `metadata.deleteObjectMD` in the `deleteNullVersion` step
(`none` = success). -/
def versioningPreprocessing (objMD : Option ObjMD) (vCfg : Option String)
    (storeResult : Option MDError)
    (getMDResult : Except MDError (Option RawLocation))
    (deleteResult : Option MDError) : Except MDError PutOptions :=
  let mst := getMasterState objMD
  match vCfg with
  | none =>
    -- bucket is not versioning configured
    Except.ok { dataToDelete := mst.objLocation }
  | some status =>
    let d := processVersioningState mst status
    match storeVersionStep d storeResult with
    | some e => Except.error e
    | none =>
      match getNullVersionLocationsStep d mst getMDResult with
      | Except.error e => Except.error e
      | Except.ok opts => deleteNullVersionStep d deleteResult opts

/-- Result of `preprocessingVersioningDelete`. -/
structure DeleteDecision where
  deleteData : Option Bool := none
  replayId : Option String := none
  versionId : Option String := none
  isNull : Option Bool := none
deriving DecidableEq, Repr

/-- `preprocessingVersioningDelete(bucketName, bucketMD, objectMD, reqVersionId, log, callback)`:
pure decision function for the delete path.  `vCfg` is the bucket's versioning
configuration `Status` (or `none` when not configured). -/
def preprocessingVersioningDelete (vCfg : Option String) (objectMD : ObjMD)
    (reqVersionId : Option String) : DeleteDecision :=
  let options : DeleteDecision :=
    if vCfg.isNone || strTruthy reqVersionId then
      -- delete data if bucket is non-versioned or the request deletes a
      -- specific version
      { deleteData := some true
        replayId := if strTruthy objectMD.uploadId then objectMD.uploadId else none }
    else {}
  if vCfg.isSome then
    if strTruthy reqVersionId then
      if reqVersionId = some "null" then
        -- deleting the 'null' version if it exists
        if objectMD.versionId.isSome then
          if boolTruthy objectMD.isNull then { options with versionId := objectMD.versionId }
          else
            -- deleting the null key
            { options with versionId := some "null" }
        else options
      else
        -- deleting a specific version
        { options with versionId := reqVersionId }
    else
      -- not deleting any specific version, making a delete marker instead
      { options with isNull := some true }
  else options

end CloudServer

namespace CloudServer

deriving instance DecidableEq for Except

/-! ## Theorems about the embedded program -/

/-- C9: `getMasterState` returns the empty state (exists false, all other
fields absent) when no metadata record is given; otherwise it copies
`versionId`, `uploadId`, `isNull`, `isNullKey`, `nullVersionId` and
`nullUploadId` verbatim and normalizes `location` (single value or sequence)
into `objLocation` as an ordered sequence, omitted when absent.  Being a total
Lean function, it never fails. -/
theorem c9_getMasterState_contract :
    getMasterState none = { recordExists := false } ∧
    (∀ objMD : ObjMD, getMasterState (some objMD) =
        { recordExists := true, versionId := objMD.versionId, uploadId := objMD.uploadId,
          isNull := objMD.isNull, isNullKey := objMD.isNullKey,
          nullVersionId := objMD.nullVersionId, nullUploadId := objMD.nullUploadId,
          objLocation := objMD.location.map normalizeLocation }) ∧
    (∀ l : LocRef, normalizeLocation (RawLocation.single l) = [l]) ∧
    (∀ ls : List LocRef, normalizeLocation (RawLocation.multiple ls) = ls) :=
  ⟨rfl, fun _ => rfl, fun _ => rfl, fun _ => rfl⟩

/-- C1 counterexample: for a legacy-form null master (`isNull` true) under
`Suspended`, `processVersioningState` does set `putOptions.dataToDelete`
directly (to `mst.objLocation`) while scheduling
`deleteOptions.versionId = mst.versionId` with `deleteData` unset — so the
claim's "instead of setting dataToDelete directly (the delete path resolves
data locations)" fails at this input. -/
theorem c1_counterexample :
    (processVersioningState { recordExists := true, versionId := some "v1", isNull := some true, objLocation := some [LocRef.mk "loc1"] } "Suspended").options.dataToDelete ≠ none ∧
    (processVersioningState { recordExists := true, versionId := some "v1", isNull := some true, objLocation := some [LocRef.mk "loc1"] } "Suspended").options.dataToDelete = some [LocRef.mk "loc1"] ∧
    (processVersioningState { recordExists := true, versionId := some "v1", isNull := some true, objLocation := some [LocRef.mk "loc1"] } "Suspended").delOptions = some { versionId := some "v1", deleteData := none } := by
  decide

/-- C1 (amended): for every MasterState that is absent, is a null version
(`isNull` or `isNullKey` truthy), or has no truthy `versionId`, under
`Suspended`, `processVersioningState` returns putOptions with versionId "",
isNull true and dataToDelete set directly to `mst.objLocation`; if a
legacy-form null version exists (`isNull` true) it additionally schedules
`deleteOptions.versionId = mst.versionId` with `deleteData` unset (a
metadata-only delete; the delete path does not resolve data locations since
`deleteData` is not set); if only the modern null-key form exists it
schedules `deleteOptions.versionId = "null"`; if neither exists, no delete
step is scheduled.  No snapshot (`storeOptions`) is ever produced here. -/
theorem c1_suspended_null_master (mst : MasterState)
    (h : (boolTruthy mst.isNullKey || boolTruthy mst.isNull || !strTruthy mst.versionId) = true) :
    (processVersioningState mst "Suspended").options =
      { versionId := some "", isNull := some true, dataToDelete := mst.objLocation } ∧
    (processVersioningState mst "Suspended").storeOptions = none ∧
    (boolTruthy mst.isNull = true →
      (processVersioningState mst "Suspended").delOptions =
        some { versionId := mst.versionId, deleteData := none }) ∧
    (boolTruthy mst.isNull = false → boolTruthy mst.isNullKey = true →
      (processVersioningState mst "Suspended").delOptions =
        some { versionId := some "null", deleteData := none }) ∧
    (boolTruthy mst.isNull = false → boolTruthy mst.isNullKey = false →
      (processVersioningState mst "Suspended").delOptions = none) := by
  cases hN : boolTruthy mst.isNull <;> cases hK : boolTruthy mst.isNullKey <;>
    simp_all [processVersioningState]

/-- Witness for C1 (amended) at a concrete legacy-null master. -/
theorem c1_suspended_null_master_witness :
    (processVersioningState { recordExists := true, versionId := some "v1", isNull := some true } "Suspended").options = { versionId := some "", isNull := some true, dataToDelete := none } :=
  (c1_suspended_null_master { recordExists := true, versionId := some "v1", isNull := some true } (by decide)).1

/-- C2 counterexample: on a versioning-configured bucket, with requested
version id exactly "null" and object metadata without a `versionId` of its
own, `preprocessingVersioningDelete` leaves `versionId` unset in its result
(it returns only `deleteData = true`), contradicting the claimed
`{versionId := "null", deleteData := true}`. -/
theorem c2_counterexample :
    (preprocessingVersioningDelete (some "Enabled") {} (some "null")).versionId ≠ some "null" ∧
    preprocessingVersioningDelete (some "Enabled") {} (some "null") = { deleteData := some true } := by
  decide

/-- C2 (amended): for every delete request on a versioning-configured bucket
with requested version id exactly "null", where the current object metadata
has no `versionId` of its own, `preprocessingVersioningDelete` returns a
decision with deleteData true and no versionId (no specific version slot is
targeted; the null-key slot is not consulted). -/
theorem c2_null_request_without_versionId (vstatus : String) (objectMD : ObjMD)
    (h : objectMD.versionId = none) :
    (preprocessingVersioningDelete (some vstatus) objectMD (some "null")).deleteData = some true ∧
    (preprocessingVersioningDelete (some vstatus) objectMD (some "null")).versionId = none ∧
    (preprocessingVersioningDelete (some vstatus) objectMD (some "null")).isNull = none := by
  simp [preprocessingVersioningDelete, strTruthy, h]

/-- Witness for C2 (amended) at a concrete empty object-metadata record. -/
theorem c2_null_request_without_versionId_witness :
    (preprocessingVersioningDelete (some "Enabled") {} (some "null")).deleteData = some true ∧
    (preprocessingVersioningDelete (some "Enabled") {} (some "null")).versionId = none ∧
    (preprocessingVersioningDelete (some "Enabled") {} (some "null")).isNull = none :=
  c2_null_request_without_versionId "Enabled" {} rfl

/-- C3: for every MasterState that is absent, is a null version, or has no
truthy versionId, under `Enabled`, `processVersioningState` sets
putOptions.versioning true; if a master record exists it returns storeOptions
with isNullKey true and versionId equal to the existing null identifier
(`mst.versionId`) when the master is a null version, or else the reserved
"infinite" identifier from the codec; if no master record exists, no
storeOptions is returned.  The last conjunct is the spec's Scenario 3: an
existing pre-versioning object with no versionId gets
`storeOptions = {versionId := reserved-infinite-id, isNullKey := true}`. -/
theorem c3_enabled_null_master (mst : MasterState)
    (h : (boolTruthy mst.isNullKey || boolTruthy mst.isNull || !strTruthy mst.versionId) = true) :
    (processVersioningState mst "Enabled").options = { versioning := some true } ∧
    (mst.recordExists = true →
      (processVersioningState mst "Enabled").storeOptions =
        some { versionId := if boolTruthy mst.isNull || boolTruthy mst.isNullKey then mst.versionId else some nonVersionedObjId,
               isNullKey := some true }) ∧
    (mst.recordExists = false → (processVersioningState mst "Enabled").storeOptions = none) ∧
    (processVersioningState { recordExists := true } "Enabled").storeOptions =
      some { versionId := some nonVersionedObjId, isNullKey := some true } := by
  cases hE : mst.recordExists <;>
    refine ⟨?_, ?_, ?_, by decide⟩ <;> simp_all [processVersioningState]

/-- Witness for C3 at a concrete null-key master record. -/
theorem c3_enabled_null_master_witness :
    (processVersioningState { recordExists := true, versionId := some "n1", isNullKey := some true } "Enabled").options = { versioning := some true } :=
  (c3_enabled_null_master { recordExists := true, versionId := some "n1", isNullKey := some true } (by decide)).1

/-- C4: for every MasterState representing a real version (truthy versionId,
not null, not null-key) whose nullVersionId is truthy, under `Enabled`,
`processVersioningState` returns both
`storeOptions = {versionId := nullVersionId, isNullKey := true}` and
`deleteOptions = {versionId := nullVersionId}`, targeting that same
nullVersionId. -/
theorem c4_enabled_real_version_with_legacy_null (mst : MasterState)
    (hV : strTruthy mst.versionId = true)
    (hN : boolTruthy mst.isNull = false)
    (hK : boolTruthy mst.isNullKey = false)
    (hNV : strTruthy mst.nullVersionId = true) :
    (processVersioningState mst "Enabled").storeOptions =
      some { versionId := mst.nullVersionId, isNullKey := some true } ∧
    (processVersioningState mst "Enabled").delOptions =
      some { versionId := mst.nullVersionId, deleteData := none, replayId := none } := by
  simp [processVersioningState, hV, hN, hK, hNV]

/-- Witness for C4 at a concrete real version with a legacy null version. -/
theorem c4_enabled_real_version_with_legacy_null_witness :
    (processVersioningState { recordExists := true, versionId := some "v2", nullVersionId := some "n1" } "Enabled").storeOptions = some { versionId := some "n1", isNullKey := some true } ∧
    (processVersioningState { recordExists := true, versionId := some "v2", nullVersionId := some "n1" } "Enabled").delOptions = some { versionId := some "n1", deleteData := none, replayId := none } :=
  c4_enabled_real_version_with_legacy_null { recordExists := true, versionId := some "v2", nullVersionId := some "n1" } (by decide) (by decide) (by decide) (by decide)

/-- C5: for every MasterState representing a real version (truthy versionId,
not null, not null-key), under `Suspended`, `processVersioningState` returns
`putOptions = {versionId := "", isNull := true}` with no dataToDelete; if
nullVersionId is truthy it returns
`deleteOptions = {versionId := nullVersionId, deleteData := true}` with
replayId equal to nullUploadId when that is truthy; if nullVersionId is
absent it returns the best-effort
`deleteOptions = {versionId := "null", deleteData := true}`. -/
theorem c5_suspended_real_version (mst : MasterState)
    (hV : strTruthy mst.versionId = true)
    (hN : boolTruthy mst.isNull = false)
    (hK : boolTruthy mst.isNullKey = false) :
    (processVersioningState mst "Suspended").options =
      { versionId := some "", isNull := some true, dataToDelete := none } ∧
    (strTruthy mst.nullVersionId = true →
      (processVersioningState mst "Suspended").delOptions =
        some { versionId := mst.nullVersionId, deleteData := some true,
               replayId := if strTruthy mst.nullUploadId then mst.nullUploadId else none }) ∧
    (strTruthy mst.nullVersionId = false →
      (processVersioningState mst "Suspended").delOptions =
        some { versionId := some "null", deleteData := some true, replayId := none }) := by
  cases hNV : strTruthy mst.nullVersionId <;>
    simp_all [processVersioningState]

/-- Witness for C5 at a concrete real version with a legacy null version and
an in-progress multipart upload for it. -/
theorem c5_suspended_real_version_witness :
    (processVersioningState { recordExists := true, versionId := some "v2", nullVersionId := some "n1", nullUploadId := some "u1" } "Suspended").options = { versionId := some "", isNull := some true, dataToDelete := none } :=
  (c5_suspended_real_version { recordExists := true, versionId := some "v2", nullVersionId := some "n1", nullUploadId := some "u1" } (by decide) (by decide) (by decide)).1

/-- C10: for every MasterState and every bucket versioning status, whenever
the decision returned by `processVersioningState` contains storeOptions, that
storeOptions has isNullKey true and the decision's putOptions has versioning
true, and the same decision never also carries deleteOptions with deleteData
set. -/
theorem c10_storeOptions_invariant (mst : MasterState) (vstat : String) (so : StoreOptions)
    (h : (processVersioningState mst vstat).storeOptions = some so) :
    so.isNullKey = some true ∧
    (processVersioningState mst vstat).options.versioning = some true ∧
    (∀ dOpts : DelOptions, (processVersioningState mst vstat).delOptions = some dOpts →
      boolTruthy dOpts.deleteData = false) := by
  simp only [processVersioningState] at h ⊢
  split_ifs at h ⊢
  all_goals simp_all [boolTruthy]
  all_goals (subst h; rfl)

/-- Witness for C10 at a concrete pre-versioning master under Enabled. -/
theorem c10_storeOptions_invariant_witness :
    ({ versionId := some nonVersionedObjId, isNullKey := some true } : StoreOptions).isNullKey = some true ∧
    (processVersioningState { recordExists := true } "Enabled").options.versioning = some true ∧
    (∀ dOpts : DelOptions, (processVersioningState { recordExists := true } "Enabled").delOptions = some dOpts →
      boolTruthy dOpts.deleteData = false) :=
  c10_storeOptions_invariant { recordExists := true } "Enabled" { versionId := some nonVersionedObjId, isNullKey := some true } (by decide)

/-- C8: `preprocessingVersioningDelete` sets deleteData = true exactly when
the bucket has no versioning configuration or a specific (truthy) version id
is requested, propagating the object's truthy uploadId as replayId in that
case; and when the bucket is versioning-configured and no specific version is
requested it does not set deleteData and sets isNull = true to signal
creation of a delete marker. -/
theorem c8_deleteData_policy (vCfg : Option String) (objectMD : ObjMD)
    (reqVersionId : Option String) :
    ((preprocessingVersioningDelete vCfg objectMD reqVersionId).deleteData = some true ↔
      (vCfg.isNone || strTruthy reqVersionId) = true) ∧
    ((vCfg.isNone || strTruthy reqVersionId) = true →
      (preprocessingVersioningDelete vCfg objectMD reqVersionId).replayId =
        (if strTruthy objectMD.uploadId then objectMD.uploadId else none)) ∧
    (vCfg.isSome = true → strTruthy reqVersionId = false →
      (preprocessingVersioningDelete vCfg objectMD reqVersionId).deleteData = none ∧
      (preprocessingVersioningDelete vCfg objectMD reqVersionId).isNull = some true) := by
  cases vCfg <;> cases hr : strTruthy reqVersionId <;>
    simp [preprocessingVersioningDelete, hr] <;> split_ifs <;> simp

/-- Witness for C8: a request with a specific version id on a
versioning-configured bucket, the object holding an in-progress upload. -/
theorem c8_deleteData_policy_witness :
    (preprocessingVersioningDelete (some "Enabled") { uploadId := some "u1" } (some "v1")).replayId = some "u1" ∧
    (preprocessingVersioningDelete (some "Enabled") {} none).deleteData = none ∧
    (preprocessingVersioningDelete (some "Enabled") {} none).isNull = some true := by
  refine ⟨?_, ?_, ?_⟩
  · have h := (c8_deleteData_policy (some "Enabled") { uploadId := some "u1" } (some "v1")).2.1 (by decide)
    simpa using h
  · exact ((c8_deleteData_policy (some "Enabled") {} none).2.2 (by decide) (by decide)).1
  · exact ((c8_deleteData_policy (some "Enabled") {} none).2.2 (by decide) (by decide)).2

/-- C6: in `versioningPreprocessing`, a failure of the snapshot-store step
(writing the null-key copy) aborts the whole operation and is propagated to
the caller verbatim; in the delete-stale-record step a not-found result is
treated as benign and the overall operation still succeeds returning the same
putOptions; and any other delete failure is escalated as an internal error
that aborts the operation. -/
theorem c6_orchestration_error_policy (objMD : Option ObjMD) (status : String)
    (storeRes : Option MDError) (g : Except MDError (Option RawLocation)) (e : MDError) :
    ((processVersioningState (getMasterState objMD) status).storeOptions.isSome = true →
      ∀ delRes : Option MDError,
        versioningPreprocessing objMD (some status) (some e) g delRes = Except.error e) ∧
    (∀ opts : PutOptions,
      versioningPreprocessing objMD (some status) storeRes g none = Except.ok opts →
      versioningPreprocessing objMD (some status) storeRes g (some MDError.noSuchKey) =
        Except.ok opts) ∧
    (∀ opts : PutOptions,
      (processVersioningState (getMasterState objMD) status).delOptions.isSome = true →
      versioningPreprocessing objMD (some status) storeRes g none = Except.ok opts →
      e ≠ MDError.noSuchKey →
      versioningPreprocessing objMD (some status) storeRes g (some e) =
        Except.error MDError.internalError) := by
  refine ⟨?_, ?_, ?_⟩
  · intro hs delRes
    simp [versioningPreprocessing, storeVersionStep, hs]
  · intro opts hok
    simp only [versioningPreprocessing] at hok ⊢
    cases h1 : storeVersionStep (processVersioningState (getMasterState objMD) status) storeRes with
    | some e1 => simp [h1] at hok
    | none =>
      simp only [h1] at hok ⊢
      cases h2 : getNullVersionLocationsStep (processVersioningState (getMasterState objMD) status) (getMasterState objMD) g with
      | error e2 => simp [h2] at hok
      | ok opts2 =>
        simp only [h2] at hok ⊢
        cases hd : (processVersioningState (getMasterState objMD) status).delOptions with
        | none => simpa [deleteNullVersionStep, hd] using hok
        | some dOpts =>
          simp only [deleteNullVersionStep, hd] at hok ⊢
          simpa using hok
  · intro opts hds hok hne
    simp only [versioningPreprocessing] at hok ⊢
    cases h1 : storeVersionStep (processVersioningState (getMasterState objMD) status) storeRes with
    | some e1 => simp [h1] at hok
    | none =>
      simp only [h1] at hok ⊢
      cases h2 : getNullVersionLocationsStep (processVersioningState (getMasterState objMD) status) (getMasterState objMD) g with
      | error e2 => simp [h2] at hok
      | ok opts2 =>
        simp only [h2] at hok ⊢
        cases hd : (processVersioningState (getMasterState objMD) status).delOptions with
        | none => simp [hd] at hds
        | some dOpts => simp [deleteNullVersionStep, hd, hne]

/-- Witness for C6 at concrete inputs: a snapshot-store failure on an
Enabled-bucket decision with a pre-versioning master is propagated, and a
non-NoSuchKey delete failure on a Suspended-bucket decision with a legacy
null version becomes an internal error. -/
theorem c6_orchestration_error_policy_witness :
    versioningPreprocessing (some {}) (some "Enabled") (some MDError.otherError) (Except.ok none) none = Except.error MDError.otherError ∧
    versioningPreprocessing (some { versionId := some "v1", nullVersionId := some "n1" }) (some "Suspended") none (Except.error MDError.noSuchKey) (some MDError.otherError) = Except.error MDError.internalError := by
  constructor
  · exact (c6_orchestration_error_policy (some {}) "Enabled" none (Except.ok none) MDError.otherError).1 (by decide) none
  · exact (c6_orchestration_error_policy (some { versionId := some "v1", nullVersionId := some "n1" }) "Suspended" none (Except.error MDError.noSuchKey) MDError.otherError).2.2 { versionId := some "", isNull := some true } (by decide) (by decide) (by decide)

/-- C7: the resolve-deletion-locations step runs only when
`deleteOptions.deleteData` is set (the orchestration result does not depend
on the metadata read otherwise); when the version to delete equals the
master's own versionId, `_getNullVersionLocationsToDelete` returns the
master's already-known locations independently of any metadata read; when it
differs it reads that version's metadata, treating a not-found result as
success with no locations to delete and escalating any other read error; and
resolved locations are attached to `putOptions.dataToDelete`. -/
theorem c7_resolve_deletion_locations (objMD : Option ObjMD) (status : String)
    (storeRes : Option MDError) (delRes : Option MDError)
    (mst : MasterState) (optVid : Option String)
    (g g2 : Except MDError (Option RawLocation)) (e : MDError) :
    ((∀ dOpts : DelOptions,
        (processVersioningState (getMasterState objMD) status).delOptions = some dOpts →
        boolTruthy dOpts.deleteData = false) →
      versioningPreprocessing objMD (some status) storeRes g delRes =
        versioningPreprocessing objMD (some status) storeRes g2 delRes) ∧
    (optVid = mst.versionId →
      getNullVersionLocationsToDelete optVid mst g = Except.ok mst.objLocation) ∧
    (optVid ≠ mst.versionId →
      getNullVersionLocationsToDelete optVid mst (Except.error MDError.noSuchKey) =
        Except.ok none) ∧
    (optVid ≠ mst.versionId → e ≠ MDError.noSuchKey →
      getNullVersionLocationsToDelete optVid mst (Except.error e) = Except.error e) ∧
    (∀ dOpts : DelOptions, ∀ data : List LocRef,
      (processVersioningState (getMasterState objMD) status).delOptions = some dOpts →
      boolTruthy dOpts.deleteData = true →
      getNullVersionLocationsToDelete dOpts.versionId (getMasterState objMD) g =
        Except.ok (some data) →
      versioningPreprocessing objMD (some status) none g none =
        Except.ok { (processVersioningState (getMasterState objMD) status).options with
                    dataToDelete := some data }) := by
  refine ⟨?_, ?_, ?_, ?_, ?_⟩
  · intro h
    simp only [versioningPreprocessing]
    cases h1 : storeVersionStep (processVersioningState (getMasterState objMD) status) storeRes with
    | some e1 => simp [h1]
    | none =>
      simp only [h1]
      have h2 : getNullVersionLocationsStep (processVersioningState (getMasterState objMD) status) (getMasterState objMD) g =
          getNullVersionLocationsStep (processVersioningState (getMasterState objMD) status) (getMasterState objMD) g2 := by
        cases hd : (processVersioningState (getMasterState objMD) status).delOptions with
        | none => simp [getNullVersionLocationsStep, hd]
        | some dOpts => simp [getNullVersionLocationsStep, hd, h dOpts hd]
      rw [h2]
  · intro he
    simp [getNullVersionLocationsToDelete, he]
  · intro hne
    simp [getNullVersionLocationsToDelete, hne]
  · intro hne hce
    simp [getNullVersionLocationsToDelete, hne, hce]
  · intro dOpts data hd hdd hg
    simp [versioningPreprocessing, storeVersionStep, getNullVersionLocationsStep,
          deleteNullVersionStep, hd, hdd, hg]

/-- Witness for C7 at concrete inputs: with a legacy null version under
Suspended (deleteData set, version to delete differing from the master's),
the locations fetched by the metadata read end up in
`putOptions.dataToDelete`; the pure resolution facts are instantiated with
concrete version ids and read outcomes. -/
theorem c7_resolve_deletion_locations_witness :
    versioningPreprocessing (some { versionId := some "v1", nullVersionId := some "n1" }) (some "Suspended") none (Except.ok (some (RawLocation.single (LocRef.mk "d1")))) none = Except.ok { versionId := some "", isNull := some true, dataToDelete := some [LocRef.mk "d1"] } ∧
    getNullVersionLocationsToDelete (some "v1") { recordExists := true, versionId := some "v1", objLocation := some [LocRef.mk "m1"] } (Except.error MDError.otherError) = Except.ok (some [LocRef.mk "m1"]) ∧
    getNullVersionLocationsToDelete (some "n1") { recordExists := true, versionId := some "v1" } (Except.error MDError.noSuchKey) = Except.ok none ∧
    getNullVersionLocationsToDelete (some "n1") { recordExists := true, versionId := some "v1" } (Except.error MDError.otherError) = Except.error MDError.otherError := by
  refine ⟨?_, ?_, ?_, ?_⟩
  · exact (c7_resolve_deletion_locations (some { versionId := some "v1", nullVersionId := some "n1" }) "Suspended" none none {} none (Except.ok (some (RawLocation.single (LocRef.mk "d1")))) (Except.ok none) MDError.otherError).2.2.2.2 { versionId := some "n1", deleteData := some true } [LocRef.mk "d1"] (by decide) (by decide) (by decide)
  · exact (c7_resolve_deletion_locations none "Enabled" none none { recordExists := true, versionId := some "v1", objLocation := some [LocRef.mk "m1"] } (some "v1") (Except.error MDError.otherError) (Except.ok none) MDError.otherError).2.1 (by decide)
  · exact (c7_resolve_deletion_locations none "Enabled" none none { recordExists := true, versionId := some "v1" } (some "n1") (Except.ok none) (Except.ok none) MDError.otherError).2.2.1 (by decide)
  · exact (c7_resolve_deletion_locations none "Enabled" none none { recordExists := true, versionId := some "v1" } (some "n1") (Except.ok none) (Except.ok none) MDError.otherError).2.2.2.1 (by decide) (by decide)

end CloudServer
